import Mathlib

/-!
Shallow embedding of the `assert_ok` lint rule
(`src/clippy_lints/src/assert_ok.rs`) and of the interface of the helper
functions it calls from `clippy_utils` (modelled from the specification,
since their code is not part of the sources provided).

The rule inspects one expression node at a time and, when the node is the
root of a plain `assert!(r.is_ok())` invocation with no custom panic
message, emits one finding suggesting `r.unwrap()`.
-/

/-- A source span: a byte range in a file, tagged with whether it was
synthesised by macro expansion (spec section 3: spans carry provenance). -/
structure Span where
  file : Nat
  lo : Nat
  hi : Nat
  fromExpansion : Bool
  deriving DecidableEq, Repr

/-- The suggestion applicability tiers of the host diagnostics library
(`rustc_errors::Applicability`); `Unspecified` is the weakest tier. -/
inductive Applicability where
  | MachineApplicable
  | MaybeIncorrect
  | HasPlaceholders
  | Unspecified
  deriving DecidableEq, Repr

mutual

/-- An IR expression node (`rustc_hir::Expr`): node id, span,
whether this node is the first/outermost node of the macro expansion
containing it (used by macro call resolution), and its kind. -/
inductive Expr where
  | mk : Nat → Span → Bool → ExprKind → Expr

/-- The kind tag of an expression node (`rustc_hir::ExprKind`), restricted
to the shapes the rule distinguishes.  In `methodCall name args callSpan`
the receiver is the first element of `args`, as in the HIR of the version
this code targets. -/
inductive ExprKind where
  | methodCall : String → List Expr → Span → ExprKind
  | fieldAccess : Expr → String → ExprKind
  | call : Expr → List Expr → ExprKind
  | block : ExprKind
  | lit : ExprKind
  | other : ExprKind

end

/-- Node id of an expression. -/
def Expr.hirId : Expr → Nat
  | .mk i _ _ _ => i

/-- Span of an expression. -/
def Expr.span : Expr → Span
  | .mk _ s _ _ => s

/-- Whether this node is the first/outermost node of the macro expansion
containing it. -/
def Expr.firstNode : Expr → Bool
  | .mk _ _ b _ => b

/-- Kind of an expression. -/
def Expr.kind : Expr → ExprKind
  | .mk _ _ _ k => k

/-- Modelled from the spec: the decomposed argument list of a macro
expansion (spec section 4.3).  `margs = none` models an expansion whose
argument shape cannot be decomposed; otherwise the first element is the
boolean condition and any further elements form a custom panic message. -/
structure Expn where
  margs : Option (List Expr)

/-- Modelled from the spec: the canonical macro call descriptor returned by
macro call resolution (`clippy_utils::macros::MacroCall`, not under `src/`):
macro definition identity, call span and expansion. -/
structure MacroCall where
  def_id : Nat
  span : Span
  expn : Expn

/-- The analysis context handed to the rule (`LateContext`): the host's
diagnostic-name table for macro definitions, the source map used for
snippet extraction, and the per-node root-macro-expansion table used by
macro call resolution. -/
structure Ctx where
  diagName : Nat → Option String
  source : Span → Option String
  rootMacOf : Nat → Option MacroCall

/-- Modelled from the spec: the two-variant panic-expansion tag
(`clippy_utils::macros::PanicExpn`, not under `src/`): `Empty` when no
custom message was supplied, `Custom` when one was. -/
inductive PanicExpn where
  | Empty : PanicExpn
  | Custom : Expr → PanicExpn

/-- Modelled from the spec: `clippy_utils::macros::root_macro_call_first_node`
(not under `src/`).  Returns the root macro call descriptor of the expansion
containing the node, and succeeds only when the visited node is the
outermost/first node of that expansion; any inner node resolves to `none`. -/
def root_macro_call_first_node (cx : Ctx) (e : Expr) : Option MacroCall :=
  if e.firstNode then cx.rootMacOf e.hirId else none

/-- Modelled from the spec: `clippy_utils::macros::find_assert_args` (not
under `src/`).  Decomposes the assert invocation: the first macro argument
is the boolean condition; any remaining argument is a custom panic message,
yielding `Custom`; absence of further arguments yields `Empty`; an
undecomposable shape yields `none`. -/
def find_assert_args (cx : Ctx) (e : Expr) (expn : Expn) :
    Option (Expr × PanicExpn) :=
  match cx, e, expn.margs with
  | _, _, none => none
  | _, _, some [] => none
  | _, _, some (cond :: []) => some (cond, PanicExpn.Empty)
  | _, _, some (cond :: m :: _) => some (cond, PanicExpn.Custom m)

/-- Modelled from the spec: `clippy_utils::source::snippet_opt` (not under
`src/`).  Maps a span to the literal source text it denotes, or `none` when
the span has no retrievable textual backing. -/
def snippet_opt (cx : Ctx) (sp : Span) : Option String :=
  cx.source sp

/-- A finding handed to the diagnostic sink (spec section 3). -/
structure Finding where
  rule_id : String
  primary_span : Span
  message : String
  help : String
  replacement : String
  applicability : Applicability
  deriving DecidableEq, Repr

/-- Modelled from the spec: `clippy_utils::diagnostics::span_lint_and_sugg`
(not under `src/`).  Assembles the finding that is handed to the host's
diagnostic sink. -/
def span_lint_and_sugg (rule : String) (sp : Span) (msg : String)
    (help : String) (sugg : String) (app : Applicability) : Finding :=
  ⟨rule, sp, msg, help, sugg, app⟩

/-- `AssertOk::check_expr` (src/clippy_lints/src/assert_ok.rs, lines 35-62),
translated guard for guard.  The result is the list of findings handed to
the sink (empty on any silent abort); `Except.error ()` models the panic of
the slice indexing `&args[0]` on an empty argument list, which the host's
IR invariant (a method call always carries its receiver as `args[0]`)
rules out. -/
def check_expr (cx : Ctx) (e : Expr) : Except Unit (List Finding) :=
  match root_macro_call_first_node cx e with
  | none => .ok []
  | some macro_call =>
    if cx.diagName macro_call.def_id = some "assert_macro" then
      match find_assert_args cx e macro_call.expn with
      | none => .ok []
      | some (condition, panic_expn) =>
        match panic_expn with
        | .Custom _ => .ok []
        | .Empty =>
          match condition.kind with
          | .methodCall method_segment args _ =>
            if method_segment = "is_ok" then
              match args with
              | [] => .error ()
              | method_receiver :: _ =>
                match snippet_opt cx method_receiver.span with
                | none => .ok []
                | some method_receiver_snippet =>
                  .ok [span_lint_and_sugg "assert_ok" macro_call.span
                    ("`assert!(" ++ method_receiver_snippet ++
                      ".is_ok())` gives bad error message")
                    "replace with"
                    (method_receiver_snippet ++ ".unwrap()")
                    Applicability.Unspecified]
            else .ok []
          | _ => .ok []
    else .ok []

/-- The lint pass value created by `declare_lint_pass!(AssertOk => [ASSERT_OK])`:
a struct with no fields, so it carries no state. -/
def AssertOkState : Type := Unit

/-- `check_expr` as the host's traversal engine invokes it: the pass value is
taken mutably and returned; the body never touches it (it has no fields). -/
def check_expr_pass (s : AssertOkState) (cx : Ctx) (e : Expr) :
    AssertOkState × Except Unit (List Finding) :=
  (s, check_expr cx e)

/-- The traversal engine's visit loop over a list of expression nodes,
threading the pass state and collecting each node's result. -/
def run_pass (s : AssertOkState) (cx : Ctx) :
    List Expr → AssertOkState × List (Except Unit (List Finding))
  | [] => (s, [])
  | e :: es =>
    let p := check_expr_pass s cx e
    let q := run_pass p.1 cx es
    (q.1, p.2 :: q.2)

/-- The host-IR invariant at this rule's single indexing site, stated as an
executable check: if the condition expression delivered to the rule is a
method call, its argument list is non-empty (the receiver is its first
element).  The real HIR guarantees this for every method call. -/
def receiver_ok (cx : Ctx) (e : Expr) : Bool :=
  match root_macro_call_first_node cx e with
  | none => true
  | some mc =>
    match find_assert_args cx e mc.expn with
    | none => true
    | some (cond, _) =>
      match cond.kind with
      | .methodCall _ args _ => !args.isEmpty
      | _ => true

/-- Whether an expression kind is a method call named exactly `is_ok`
(receiver implicit as the first argument); the shape the condition pattern
matcher accepts. -/
def isOkMethodCall : ExprKind → Bool
  | .methodCall name _ _ => name = "is_ok"
  | _ => false

/-! Concrete inputs used by the witness and counterexample theorems. -/

/-- Span of the receiver `r` in `assert!(r.is_ok());`. -/
def rspan0 : Span := ⟨0, 8, 9, false⟩

/-- Span of the condition `r.is_ok()`. -/
def condSpan0 : Span := ⟨0, 8, 17, false⟩

/-- Span of the whole `assert!(r.is_ok())` call. -/
def macSpan0 : Span := ⟨0, 0, 19, false⟩

/-- The receiver expression `r`. -/
def recvE0 : Expr := Expr.mk 11 rspan0 false ExprKind.other

/-- The condition expression `r.is_ok()`. -/
def condE0 : Expr :=
  Expr.mk 10 condSpan0 false (ExprKind.methodCall "is_ok" [recvE0] condSpan0)

/-- The root macro call descriptor of `assert!(r.is_ok());`. -/
def mc0 : MacroCall := ⟨1, macSpan0, ⟨some [condE0]⟩⟩

/-- The root expansion node of `assert!(r.is_ok());`. -/
def e0 : Expr := Expr.mk 5 macSpan0 true ExprKind.block

/-- A context in which node 5 is the root of the plain-assert expansion
`mc0` and the receiver span reads back the snippet `r`. -/
def cx0 : Ctx :=
  ⟨fun i => if i = 1 then some "assert_macro" else none,
   fun sp => if sp = rspan0 then some "r" else none,
   fun i => if i = 5 then some mc0 else none⟩

/-- The finding the rule emits on `assert!(r.is_ok());` in `cx0`. -/
def finding0 : Finding :=
  ⟨"assert_ok", macSpan0, "`assert!(r.is_ok())` gives bad error message",
   "replace with", "r.unwrap()", Applicability.Unspecified⟩

/-- A second explicit argument passed to `is_ok` (for the arity
counterexample). -/
def extra2 : Expr := Expr.mk 13 condSpan0 false ExprKind.lit

/-- The condition `r.is_ok(extra)`: an `is_ok` method call carrying one
extra explicit argument besides the receiver. -/
def cond2 : Expr :=
  Expr.mk 14 condSpan0 false
    (ExprKind.methodCall "is_ok" [recvE0, extra2] condSpan0)

/-- Root macro call descriptor whose condition is `cond2`. -/
def mc2 : MacroCall := ⟨1, macSpan0, ⟨some [cond2]⟩⟩

/-- Root expansion node of the assert whose condition is `cond2`. -/
def e2 : Expr := Expr.mk 7 macSpan0 true ExprKind.block

/-- Context resolving node 7 to the plain-assert expansion `mc2`. -/
def cx2 : Ctx :=
  ⟨fun i => if i = 1 then some "assert_macro" else none,
   fun sp => if sp = rspan0 then some "r" else none,
   fun i => if i = 7 then some mc2 else none⟩

/-- The custom panic-message expression of `assert!(r.is_ok(), "msg");`. -/
def msgE3 : Expr := Expr.mk 12 macSpan0 false ExprKind.lit

/-- Root macro call descriptor of `assert!(r.is_ok(), "msg");`: two macro
arguments, so the panic expansion decomposes as `Custom`. -/
def mc3 : MacroCall := ⟨1, macSpan0, ⟨some [condE0, msgE3]⟩⟩

/-- Root expansion node of `assert!(r.is_ok(), "msg");`. -/
def e3 : Expr := Expr.mk 6 macSpan0 true ExprKind.block

/-- Context resolving node 6 to the expansion `mc3`. -/
def cx3 : Ctx :=
  ⟨fun i => if i = 1 then some "assert_macro" else none,
   fun sp => if sp = rspan0 then some "r" else none,
   fun i => if i = 6 then some mc3 else none⟩

/-- Like `cx0` but with a source map that retrieves no snippet for any
span (a purely macro-synthesised receiver). -/
def cx4 : Ctx :=
  ⟨fun i => if i = 1 then some "assert_macro" else none,
   fun _ => none,
   fun i => if i = 5 then some mc0 else none⟩

/-- Like `cx0` but the macro's diagnostic name is the equality-assert one,
not the plain boolean assert. -/
def cx5 : Ctx :=
  ⟨fun i => if i = 1 then some "assert_eq_macro" else none,
   fun sp => if sp = rspan0 then some "r" else none,
   fun i => if i = 5 then some mc0 else none⟩

/-- An inner (non-first) node of the expansion rooted at node 5. -/
def e6 : Expr := Expr.mk 5 macSpan0 false ExprKind.block

/-- The condition `r.is_err()`: a method call whose name is not `is_ok`. -/
def cond8 : Expr :=
  Expr.mk 15 condSpan0 false (ExprKind.methodCall "is_err" [recvE0] condSpan0)

/-- Root macro call descriptor of `assert!(r.is_err());`. -/
def mc8 : MacroCall := ⟨1, macSpan0, ⟨some [cond8]⟩⟩

/-- Root expansion node of `assert!(r.is_err());`. -/
def e8 : Expr := Expr.mk 8 macSpan0 true ExprKind.block

/-- Context resolving node 8 to the expansion `mc8`. -/
def cx8 : Ctx :=
  ⟨fun i => if i = 1 then some "assert_macro" else none,
   fun sp => if sp = rspan0 then some "r" else none,
   fun i => if i = 8 then some mc8 else none⟩

/-- Claim C1: for an expression node that is the root of a plain `assert!`
expansion with `Empty` panic expansion, whose condition is an `is_ok`
method call and whose receiver span yields snippet `r`, `check_expr` emits
exactly one finding with message `` `assert!(r.is_ok())` gives bad error
message ``, replacement `r.unwrap()`, and the whole macro call's span as
primary span. -/
theorem check_expr_emits_unwrap_suggestion (cx : Ctx) (e : Expr)
    (mc : MacroCall) (cond recv : Expr) (rest : List Expr) (msp : Span)
    (r : String)
    (h1 : root_macro_call_first_node cx e = some mc)
    (h2 : cx.diagName mc.def_id = some "assert_macro")
    (h3 : find_assert_args cx e mc.expn = some (cond, PanicExpn.Empty))
    (h4 : cond.kind = ExprKind.methodCall "is_ok" (recv :: rest) msp)
    (h5 : snippet_opt cx recv.span = some r) :
    check_expr cx e =
      .ok [⟨"assert_ok", mc.span,
        "`assert!(" ++ r ++ ".is_ok())` gives bad error message",
        "replace with", r ++ ".unwrap()", Applicability.Unspecified⟩] := by
  simp [check_expr, h1, h2, h3, h4, h5, span_lint_and_sugg]

/-- Witness for C1 at the concrete input `assert!(r.is_ok());`. -/
theorem check_expr_emits_unwrap_suggestion_witness :
    root_macro_call_first_node cx0 e0 = some mc0 ∧
    cx0.diagName mc0.def_id = some "assert_macro" ∧
    find_assert_args cx0 e0 mc0.expn = some (condE0, PanicExpn.Empty) ∧
    condE0.kind = ExprKind.methodCall "is_ok" (recvE0 :: []) condSpan0 ∧
    snippet_opt cx0 recvE0.span = some "r" ∧
    check_expr cx0 e0 =
      .ok [⟨"assert_ok", mc0.span,
        "`assert!(" ++ "r" ++ ".is_ok())` gives bad error message",
        "replace with", "r" ++ ".unwrap()", Applicability.Unspecified⟩] :=
  ⟨rfl, rfl, rfl, rfl, rfl,
    check_expr_emits_unwrap_suggestion cx0 e0 mc0 condE0 recvE0 [] condSpan0
      "r" rfl rfl rfl rfl rfl⟩

/-- Claim C3: when the assert invocation decomposes with a `Custom` panic
expansion (a custom message was supplied), `check_expr` emits no finding. -/
theorem check_expr_custom_message_no_finding (cx : Ctx) (e : Expr)
    (mc : MacroCall) (cond m : Expr)
    (h1 : root_macro_call_first_node cx e = some mc)
    (h2 : find_assert_args cx e mc.expn = some (cond, PanicExpn.Custom m)) :
    check_expr cx e = .ok [] := by
  simp [check_expr, h1, h2]

/-- Witness for C3 at the concrete input `assert!(r.is_ok(), "msg");`. -/
theorem check_expr_custom_message_no_finding_witness :
    root_macro_call_first_node cx3 e3 = some mc3 ∧
    find_assert_args cx3 e3 mc3.expn = some (condE0, PanicExpn.Custom msgE3) ∧
    check_expr cx3 e3 = .ok [] :=
  ⟨rfl, rfl,
    check_expr_custom_message_no_finding cx3 e3 mc3 condE0 msgE3 rfl rfl⟩

/-- Claim C4: when the receiver's span has no retrievable source text,
`check_expr` emits no finding; and every finding that is emitted embeds a
snippet actually retrieved for the receiver span (replacement is exactly
that snippet followed by `.unwrap()`), never fabricated text. -/
theorem check_expr_snippet_faithful (cx : Ctx) (e : Expr) (mc : MacroCall)
    (cond recv : Expr) (rest : List Expr) (msp : Span)
    (h1 : root_macro_call_first_node cx e = some mc)
    (h2 : find_assert_args cx e mc.expn = some (cond, PanicExpn.Empty))
    (h3 : cond.kind = ExprKind.methodCall "is_ok" (recv :: rest) msp) :
    (snippet_opt cx recv.span = none → check_expr cx e = .ok []) ∧
    (∀ f fs, check_expr cx e = .ok (f :: fs) →
      ∃ snip, snippet_opt cx recv.span = some snip ∧
        f.replacement = snip ++ ".unwrap()") := by
  constructor
  · intro h4
    simp [check_expr, h1, h2, h3, h4]
  · intro f fs hemit
    by_cases hd : cx.diagName mc.def_id = some "assert_macro"
    · cases hs : snippet_opt cx recv.span with
      | none => simp [check_expr, h1, h2, h3, hs, hd] at hemit
      | some snip =>
        refine ⟨snip, rfl, ?_⟩
        simp [check_expr, h1, h2, h3, hs, hd, span_lint_and_sugg] at hemit
        simp [← hemit.1]
    · simp [check_expr, h1, hd] at hemit

/-- Witness for C4 at the concrete input whose receiver span has no
retrievable snippet. -/
theorem check_expr_snippet_faithful_witness :
    snippet_opt cx4 recvE0.span = none ∧ check_expr cx4 e0 = .ok [] :=
  ⟨rfl,
    (check_expr_snippet_faithful cx4 e0 mc0 condE0 recvE0 [] condSpan0
      rfl rfl rfl).1 rfl⟩

/-- Claim C5: for a node whose root macro expansion's diagnostic name is
not the plain boolean assert one, `check_expr` emits no finding. -/
theorem check_expr_wrong_diag_name_no_finding (cx : Ctx) (e : Expr)
    (mc : MacroCall)
    (h1 : root_macro_call_first_node cx e = some mc)
    (h2 : cx.diagName mc.def_id ≠ some "assert_macro") :
    check_expr cx e = .ok [] := by
  simp [check_expr, h1, h2]

/-- Witness for C5 at a concrete expansion of the equality-assert macro. -/
theorem check_expr_wrong_diag_name_no_finding_witness :
    root_macro_call_first_node cx5 e0 = some mc0 ∧
    cx5.diagName mc0.def_id ≠ some "assert_macro" ∧
    check_expr cx5 e0 = .ok [] :=
  ⟨rfl, by simp [cx5, mc0],
    check_expr_wrong_diag_name_no_finding cx5 e0 mc0 rfl (by simp [cx5, mc0])⟩

/-- Claim C6: macro call resolution succeeds only on the outermost (first)
node of an expansion; on any inner node it returns `none` and `check_expr`
emits nothing. -/
theorem check_expr_inner_node_no_finding (cx : Ctx) (e : Expr)
    (h : e.firstNode = false) :
    root_macro_call_first_node cx e = none ∧ check_expr cx e = .ok [] := by
  have hr : root_macro_call_first_node cx e = none := by
    simp [root_macro_call_first_node, h]
  exact ⟨hr, by simp [check_expr, hr]⟩

/-- Witness for C6 at a concrete inner node of the assert expansion. -/
theorem check_expr_inner_node_no_finding_witness :
    e6.firstNode = false ∧
    (root_macro_call_first_node cx0 e6 = none ∧ check_expr cx0 e6 = .ok []) :=
  ⟨rfl, check_expr_inner_node_no_finding cx0 e6 rfl⟩

/-- Claim C2 counterexample: the condition matcher does not check the
argument count.  On the concrete input `assert!(r.is_ok(extra));`, whose
condition is an `is_ok` method call with one extra explicit argument
besides the receiver, `check_expr` still emits a finding, contradicting
the claim that such a condition yields no finding. -/
theorem check_expr_extra_args_cex :
    cond2.kind = ExprKind.methodCall "is_ok" [recvE0, extra2] condSpan0 ∧
    check_expr cx2 e2 = .ok [finding0] ∧
    check_expr cx2 e2 ≠ .ok [] :=
  ⟨rfl, rfl, by
    intro hc
    rw [show check_expr cx2 e2 = Except.ok [finding0] from rfl] at hc
    simp at hc⟩

/-- Claim C2 (amended): `check_expr` emits a finding only if the condition
expression's kind is a method call named exactly `is_ok`; a condition that
is not an `is_ok` method call (for example `r.is_err()` or a field access)
yields no finding.  (The dropped part of the claim: extra explicit
arguments do not prevent emission — the matcher never checks arity.) -/
theorem check_expr_requires_is_ok_method_call (cx : Ctx) (e : Expr)
    (mc : MacroCall) (cond : Expr) (pe : PanicExpn)
    (h1 : root_macro_call_first_node cx e = some mc)
    (h2 : find_assert_args cx e mc.expn = some (cond, pe))
    (h3 : isOkMethodCall cond.kind = false) :
    check_expr cx e = .ok [] := by
  cases pe with
  | Custom m => simp [check_expr, h1, h2]
  | Empty =>
    cases hk : cond.kind with
    | methodCall n args sp =>
      rw [hk] at h3
      simp only [isOkMethodCall, decide_eq_false_iff_not] at h3
      simp [check_expr, h1, h2, hk, h3]
    | fieldAccess sub f => simp [check_expr, h1, h2, hk]
    | call f as => simp [check_expr, h1, h2, hk]
    | block => simp [check_expr, h1, h2, hk]
    | lit => simp [check_expr, h1, h2, hk]
    | other => simp [check_expr, h1, h2, hk]

/-- Witness for the amended C2 at the concrete input `assert!(r.is_err());`. -/
theorem check_expr_requires_is_ok_method_call_witness :
    root_macro_call_first_node cx8 e8 = some mc8 ∧
    find_assert_args cx8 e8 mc8.expn = some (cond8, PanicExpn.Empty) ∧
    isOkMethodCall cond8.kind = false ∧
    check_expr cx8 e8 = .ok [] :=
  ⟨rfl, rfl, rfl,
    check_expr_requires_is_ok_method_call cx8 e8 mc8 cond8 PanicExpn.Empty
      rfl rfl rfl⟩

/-- Claim C7: every finding emitted by the rule carries the weakest
suggestion applicability tier, `Unspecified`; no input produces a finding
with a stronger tier. -/
theorem check_expr_applicability_always_unspecified (cx : Ctx) (e : Expr)
    (fs : List Finding) (f : Finding)
    (h1 : check_expr cx e = .ok fs) (h2 : f ∈ fs) :
    f.applicability = Applicability.Unspecified := by
  unfold check_expr at h1
  repeat' split at h1
  all_goals first
    | (injection h1 with h1
       subst h1
       rcases List.mem_singleton.mp h2 with rfl
       rfl)
    | simp_all [span_lint_and_sugg]

/-- Witness for C7: the finding emitted on `assert!(r.is_ok());` carries
the `Unspecified` applicability. -/
theorem check_expr_applicability_always_unspecified_witness :
    check_expr cx0 e0 = .ok [finding0] ∧
    finding0 ∈ [finding0] ∧
    finding0.applicability = Applicability.Unspecified :=
  ⟨rfl, by simp,
    check_expr_applicability_always_unspecified cx0 e0 [finding0] finding0
      rfl (by simp)⟩

/-- Claim C8: the pass is deterministic and stateless.  Visiting the same
unmodified node twice yields two structurally identical results, the
per-node result under either visiting order of two independent nodes is
the same, and the pass state (a fieldless struct) is returned unchanged. -/
theorem check_expr_deterministic_stateless (s : AssertOkState) (cx : Ctx)
    (e e1 e2 : Expr) :
    (run_pass s cx [e, e]).2 = [check_expr cx e, check_expr cx e] ∧
    (run_pass s cx [e1, e2]).2 = [check_expr cx e1, check_expr cx e2] ∧
    (run_pass s cx [e2, e1]).2 = [check_expr cx e2, check_expr cx e1] ∧
    (run_pass s cx [e1, e2]).1 = s :=
  ⟨rfl, rfl, rfl, rfl⟩

/-- Claim C9: `check_expr` has no observable effect beyond possibly handing
one finding to the sink: the pass state comes back unchanged, and (under
the host-IR receiver invariant) the invocation ends with either no
emission or exactly one finding — never an error surfaced to the user. -/
theorem check_expr_frame_effects (s : AssertOkState) (cx : Ctx) (e : Expr)
    (h : receiver_ok cx e = true) :
    (check_expr_pass s cx e).1 = s ∧
    ((check_expr_pass s cx e).2 = .ok [] ∨
      ∃ f, (check_expr_pass s cx e).2 = .ok [f]) := by
  refine ⟨rfl, ?_⟩
  show check_expr cx e = .ok [] ∨ ∃ f, check_expr cx e = .ok [f]
  unfold check_expr
  repeat' split
  all_goals first
    | exact Or.inl rfl
    | exact Or.inr ⟨_, rfl⟩
    | (exfalso; simp_all [receiver_ok])

/-- Witness for C9 at the concrete input `assert!(r.is_ok());`. -/
theorem check_expr_frame_effects_witness :
    receiver_ok cx0 e0 = true ∧
    ((check_expr_pass Unit.unit cx0 e0).1 = Unit.unit ∧
      ((check_expr_pass Unit.unit cx0 e0).2 = .ok [] ∨
        ∃ f, (check_expr_pass Unit.unit cx0 e0).2 = .ok [f])) :=
  ⟨rfl, check_expr_frame_effects Unit.unit cx0 e0 rfl⟩

/-- Claim C10: under the host-IR invariant that a method call carries its
receiver as the first element of its argument list, the indexing `args[0]`
in `check_expr` never reaches an out-of-bounds branch: the modelled panic
outcome is unreachable. -/
theorem check_expr_receiver_index_safe (cx : Ctx) (e : Expr)
    (h : receiver_ok cx e = true) :
    check_expr cx e ≠ Except.error () := by
  unfold check_expr
  repeat' split
  all_goals first
    | exact fun hc => Except.noConfusion hc
    | (intro hc; simp_all [receiver_ok])

/-- Witness for C10 at the concrete input `assert!(r.is_ok());`. -/
theorem check_expr_receiver_index_safe_witness :
    receiver_ok cx0 e0 = true ∧ check_expr cx0 e0 ≠ Except.error () :=
  ⟨rfl, check_expr_receiver_index_safe cx0 e0 rfl⟩
